import Mathlib

/-!
# The build configuration module `astro.config.mjs`

The module consists of one expression statement,

    export default defineConfig({
      markdown: { shikiConfig: { theme: "css-variables" } },
      integrations: [solidJs(), mdx()]
    });

in which `defineConfig`, `solidJs` and `mdx` are bindings imported from
external packages.  The embedding below takes the three bindings as
parameters.  A call of an external function may read and change the state of
the JavaScript world and may throw, so an external function maps an argument
list and a world state to an outcome (value or thrown error) together with the
world state it leaves behind.  Evaluation follows the order fixed by the
language: the properties of an object literal and the elements of an array
literal are evaluated left to right, the argument of a call before the call.
-/

namespace AstroConfig

/-- JavaScript values that occur while the module is evaluated: strings,
object literals (own properties in insertion order), arrays, values built by
external packages, whose structure is not inspected here, and `undefined`. -/
inductive JsVal (X : Type) where
  | str (s : String) : JsVal X
  | obj (fields : List (String × JsVal X)) : JsVal X
  | arr (items : List (JsVal X)) : JsVal X
  | ext (x : X) : JsVal X
  | undefined : JsVal X

namespace JsVal

variable {X : Type}

/-- Own property names of a value, in insertion order (`Object.keys`);
a value that is not an object literal has none. -/
def keys : JsVal X → List String
  | obj fields => fields.map Prod.fst
  | _ => []

/-- Property read `v[k]`: the value stored under `k`, when there is one. -/
def get (k : String) : JsVal X → Option (JsVal X)
  | obj fields => (fields.find? (fun p => p.1 == k)).map Prod.snd
  | _ => none

/-- Chained property read `v.k1.k2...`. -/
def path : List String → JsVal X → Option (JsVal X)
  | [], v => some v
  | k :: ks, v =>
    match v.get k with
    | some w => path ks w
    | none => none

/-- Recognises string values. -/
def isStr : JsVal X → Bool
  | str _ => true
  | _ => false

/-- Recognises object-literal values. -/
def isObj : JsVal X → Bool
  | obj _ => true
  | _ => false

end JsVal

/-- An external function: from the argument list and the current world state
to the outcome of the call (returned value or thrown error) and the world
state after the call. -/
abbrev External (σ E X : Type) : Type :=
  List (JsVal X) → σ → Except E (JsVal X) × σ

variable {σ E X : Type}

/-- The object literal of lines 7-14, with the values of the two call
expressions `solidJs()` and `mdx()` filled in. -/
def configRecord (solidJsResult mdxResult : JsVal X) : JsVal X :=
  .obj [
    ("markdown", .obj [
      ("shikiConfig", .obj [
        ("theme", .str "css-variables")
      ])
    ]),
    ("integrations", .arr [solidJsResult, mdxResult])
  ]

/-- Evaluation of the argument expression of `defineConfig`: `solidJs()` is
called first, `mdx()` second, each with an empty argument list; a throw
aborts the evaluation. -/
def evalRecord (solidJs mdx : External σ E X) (s0 : σ) : Except E (JsVal X) × σ :=
  match solidJs [] s0 with
  | (.error e, s1) => (.error e, s1)
  | (.ok a, s1) =>
    match mdx [] s1 with
    | (.error e, s2) => (.error e, s2)
    | (.ok b, s2) => (.ok (configRecord a b), s2)

/-- Evaluation of `export default defineConfig({ ... })`: the argument
record is evaluated, then `defineConfig` is called on it; the outcome of that
call is the default export. -/
def defaultExport (defineConfig solidJs mdx : External σ E X) (s0 : σ) :
    Except E (JsVal X) × σ :=
  match evalRecord solidJs mdx s0 with
  | (.error e, s) => (.error e, s)
  | (.ok r, s) => defineConfig [r] s

/-- An external function that returns its single argument unchanged, as a
`defineConfig` that is the identity function does. -/
def ReturnsArgument (f : External σ E X) : Prop :=
  ∀ (v : JsVal X) (s : σ), (f [v] s).1 = .ok v

/-- An external function whose outcome does not depend on the world state
and which leaves the world state unchanged. -/
def Stateless (f : External σ E X) : Prop :=
  ∀ (args : List (JsVal X)) (s s' : σ), (f args s).1 = (f args s').1 ∧ (f args s).2 = s

/-- A record of the external calls made so far: callee name and argument list. -/
abbrev CallLog (X : Type) : Type := List (String × List (JsVal X))

/-- Instrumentation of an external function: behaves as `f` and appends the
call to a log carried next to the world state. -/
def traced (name : String) (f : External σ E X) : External (CallLog X × σ) E X :=
  fun args w => ((f args w.2).1, (w.1 ++ [(name, args)], (f args w.2).2))

mutual
/-- Number of property names at every nesting depth of a value. -/
def JsVal.nestedKeyCount : JsVal X → Nat
  | .obj fields => nestedKeyCountFields fields
  | .arr xs => nestedKeyCountItems xs
  | _ => 0
/-- Property names at every depth of a property list. -/
def nestedKeyCountFields : List (String × JsVal X) → Nat
  | [] => 0
  | (_, v) :: rest => 1 + v.nestedKeyCount + nestedKeyCountFields rest
/-- Property names at every depth of an element list. -/
def nestedKeyCountItems : List (JsVal X) → Nat
  | [] => 0
  | v :: rest => v.nestedKeyCount + nestedKeyCountItems rest
end

/-! ## Concrete externals used to exercise the definitions

The world state is a counter, external values are numbers, errors are
messages. -/

/-- An integration factory that hands out numbered instances: it returns the
current counter as an external value and advances the counter. -/
def freshInstance : External Nat String Nat :=
  fun _ n => (.ok (.ext n), n + 1)

/-- An external that ignores the world: it returns `result` and changes nothing. -/
def constantly (result : JsVal Nat) : External Nat String Nat :=
  fun _ s => (.ok result, s)

/-- The identity function as `defineConfig`: it returns its first argument,
`undefined` when called without one. -/
def identityConfig : External Nat String Nat :=
  fun args s =>
    match args with
    | v :: _ => (.ok v, s)
    | [] => (.ok .undefined, s)

/-- An external that throws `err` and advances the counter. -/
def throwing (err : String) : External Nat String Nat :=
  fun _ n => (.error err, n + 1)

/-! ## Shared lemmas about the evaluation -/

/-- When both factory calls return, the argument record is built from their
results and the world is the one left by the second call. -/
theorem evalRecord_of_calls (solidJs mdx : External σ E X) (s0 s1 s2 : σ) (a b : JsVal X)
    (h1 : solidJs [] s0 = (.ok a, s1)) (h2 : mdx [] s1 = (.ok b, s2)) :
    evalRecord solidJs mdx s0 = (.ok (configRecord a b), s2) := by
  simp only [evalRecord, h1, h2]

/-- A record comes out of the argument expression only when both factory
calls returned, and it is then the literal filled with their results. -/
theorem evalRecord_ok_inv (solidJs mdx : External σ E X) (s0 s2 : σ) (r : JsVal X)
    (h : evalRecord solidJs mdx s0 = (.ok r, s2)) :
    ∃ a s1 b, solidJs [] s0 = (.ok a, s1) ∧ mdx [] s1 = (.ok b, s2) ∧ r = configRecord a b := by
  unfold evalRecord at h
  rcases h1 : solidJs [] s0 with ⟨_ | a, s1⟩
  · simp [h1] at h
  · rcases h2 : mdx [] s1 with ⟨_ | b, t⟩
    · simp [h1, h2] at h
    · simp only [h1, h2, Prod.mk.injEq, Except.ok.injEq] at h
      exact ⟨a, s1, b, rfl, by rw [h2, h.2], h.1.symm⟩

/-- The default export is the outcome of `defineConfig` on the record. -/
theorem defaultExport_of_record (defineConfig solidJs mdx : External σ E X) (s0 s1 : σ)
    (r : JsVal X) (h : evalRecord solidJs mdx s0 = (.ok r, s1)) :
    defaultExport defineConfig solidJs mdx s0 = defineConfig [r] s1 := by
  simp only [defaultExport, h]

/-- Shape of the `markdown` part of the literal. -/
theorem configRecord_markdown (a b : JsVal X) :
    (configRecord a b).path ["markdown", "shikiConfig", "theme"] = some (.str "css-variables")
    ∧ ((configRecord a b).get "markdown").map JsVal.keys = some ["shikiConfig"]
    ∧ ((configRecord a b).path ["markdown", "shikiConfig"]).map JsVal.keys = some ["theme"] := by
  refine ⟨?_, ?_, ?_⟩ <;> simp [configRecord, JsVal.path, JsVal.get, JsVal.keys]

/-- Shape of the `integrations` part of the literal. -/
theorem configRecord_integrations (a b : JsVal X) :
    (configRecord a b).get "integrations" = some (.arr [a, b]) := by
  simp [configRecord, JsVal.get]

/-- A stateless external is a function of its arguments alone. -/
theorem Stateless.eq_of (f : External σ E X) (hf : Stateless f) (args : List (JsVal X))
    (s t : σ) : f args t = ((f args s).1, t) :=
  Prod.ext ((hf args t s).1) ((hf args t s).2)

/-- Instrumenting the three externals changes neither the outcome nor the
world state of the evaluation. -/
theorem defaultExport_traced (defineConfig solidJs mdx : External σ E X) (log : CallLog X)
    (s0 : σ) :
    (defaultExport (traced "defineConfig" defineConfig) (traced "solidJs" solidJs)
        (traced "mdx" mdx) (log, s0)).1 = (defaultExport defineConfig solidJs mdx s0).1
    ∧ (defaultExport (traced "defineConfig" defineConfig) (traced "solidJs" solidJs)
        (traced "mdx" mdx) (log, s0)).2.2 = (defaultExport defineConfig solidJs mdx s0).2 := by
  unfold defaultExport evalRecord traced
  rcases h1 : solidJs [] s0 with ⟨_ | a, s1⟩
  · simp [h1]
  · rcases h2 : mdx [] s1 with ⟨_ | b, s2⟩
    · simp [h1, h2]
    · simp [h1, h2]

/-! ## The claims -/

/-- C1: the record that the module passes to `defineConfig` has the string
"css-variables" at path markdown.shikiConfig.theme, `markdown` has the single
key `shikiConfig` and `shikiConfig` the single key `theme`; the default export
is the outcome of `defineConfig` on that record, and when `defineConfig`
returns its argument unchanged the exported value is that record. -/
theorem theme_is_css_variables (solidJs mdx : External σ E X) (s0 s1 : σ) (r : JsVal X)
    (hr : evalRecord solidJs mdx s0 = (.ok r, s1)) :
    r.path ["markdown", "shikiConfig", "theme"] = some (.str "css-variables")
    ∧ (r.get "markdown").map JsVal.keys = some ["shikiConfig"]
    ∧ (r.path ["markdown", "shikiConfig"]).map JsVal.keys = some ["theme"]
    ∧ (∀ defineConfig : External σ E X,
        defaultExport defineConfig solidJs mdx s0 = defineConfig [r] s1)
    ∧ (∀ defineConfig : External σ E X, ReturnsArgument defineConfig →
        (defaultExport defineConfig solidJs mdx s0).1 = .ok r) := by
  obtain ⟨a, t, b, -, -, rfl⟩ := evalRecord_ok_inv solidJs mdx s0 s1 r hr
  obtain ⟨h1, h2, h3⟩ := configRecord_markdown a b
  refine ⟨h1, h2, h3, ?_, ?_⟩
  · intro dc
    exact defaultExport_of_record dc solidJs mdx s0 s1 _ hr
  · intro dc hdc
    rw [defaultExport_of_record dc solidJs mdx s0 s1 _ hr]
    exact hdc _ _

/-- Witness for C1: numbered integration instances and the identity
`defineConfig`, starting from counter 0. -/
theorem theme_is_css_variables_witness :
    evalRecord freshInstance freshInstance 0 = (.ok (configRecord (.ext 0) (.ext 1)), 2)
    ∧ (configRecord (.ext 0) (.ext 1) : JsVal Nat).path ["markdown", "shikiConfig", "theme"]
        = some (.str "css-variables")
    ∧ (defaultExport identityConfig freshInstance freshInstance 0).1
        = .ok (configRecord (.ext 0) (.ext 1)) :=
  have hr : evalRecord freshInstance freshInstance 0
      = (.ok (configRecord (.ext 0) (.ext 1)), 2) := rfl
  have hid : ReturnsArgument identityConfig := fun _ _ => rfl
  ⟨hr, (theme_is_css_variables freshInstance freshInstance 0 2 _ hr).1,
    (theme_is_css_variables freshInstance freshInstance 0 2 _ hr).2.2.2.2 identityConfig hid⟩

/-- C2: whatever the factories `solidJs` and `mdx` are, when their calls
return, the `integrations` field of the configuration record is a sequence of
length exactly 2 whose element 0 is the result of `solidJs()` and whose
element 1 is the result of `mdx()`, called in that order. -/
theorem integrations_solidJs_then_mdx (solidJs mdx : External σ E X) (s0 s1 s2 : σ)
    (a b : JsVal X) (h1 : solidJs [] s0 = (.ok a, s1)) (h2 : mdx [] s1 = (.ok b, s2)) :
    ∃ r xs, evalRecord solidJs mdx s0 = (.ok r, s2)
      ∧ r.get "integrations" = some (.arr xs)
      ∧ xs.length = 2 ∧ xs[0]? = some a ∧ xs[1]? = some b := by
  refine ⟨configRecord a b, [a, b], evalRecord_of_calls solidJs mdx s0 s1 s2 a b h1 h2,
    configRecord_integrations a b, rfl, rfl, rfl⟩

/-- Witness for C2: a factory handing out instance 0 first and a constant
factory returning instance 7, starting from counter 0. -/
theorem integrations_solidJs_then_mdx_witness :
    ∃ r xs, evalRecord freshInstance (constantly (.ext 7)) 0 = (.ok r, 1)
      ∧ r.get "integrations" = some (.arr xs)
      ∧ xs.length = 2 ∧ xs[0]? = some (.ext 0) ∧ xs[1]? = some (.ext 7) :=
  integrations_solidJs_then_mdx freshInstance (constantly (.ext 7)) 0 1 1 (.ext 0) (.ext 7)
    rfl rfl

/-- C3: re-evaluating the configuration is idempotent.  When the three
external functions are stateless, evaluations started in any two world states
have equal outcomes, an evaluation leaves the world state as it found it (the
module writes no state of its own), and evaluating again after an evaluation
gives an equal outcome. -/
theorem defaultExport_idempotent (defineConfig solidJs mdx : External σ E X)
    (hdc : Stateless defineConfig) (hso : Stateless solidJs) (hmd : Stateless mdx)
    (s s' : σ) :
    (defaultExport defineConfig solidJs mdx s).1 = (defaultExport defineConfig solidJs mdx s').1
    ∧ (defaultExport defineConfig solidJs mdx s).2 = s
    ∧ (defaultExport defineConfig solidJs mdx (defaultExport defineConfig solidJs mdx s).2).1
        = (defaultExport defineConfig solidJs mdx s).1 := by
  have key : ∀ t : σ, defaultExport defineConfig solidJs mdx t
      = ((defaultExport defineConfig solidJs mdx s).1, t) := by
    intro t
    unfold defaultExport evalRecord
    rw [Stateless.eq_of solidJs hso [] s t, Stateless.eq_of solidJs hso [] s s]
    rcases (solidJs [] s).1 with e | a
    · rfl
    · simp only
      rw [Stateless.eq_of mdx hmd [] s t, Stateless.eq_of mdx hmd [] s s]
      rcases (mdx [] s).1 with e | b
      · rfl
      · simp only
        rw [Stateless.eq_of defineConfig hdc _ s t]
  refine ⟨?_, ?_, ?_⟩
  · rw [key s']
  · rw [key s]
  · rw [key (defaultExport defineConfig solidJs mdx s).2]

/-- Witness for C3: constant factories and the identity `defineConfig`,
evaluated from counters 0 and 5. -/
theorem defaultExport_idempotent_witness :
    (defaultExport identityConfig (constantly (.ext 1)) (constantly (.ext 2)) 0).1
      = (defaultExport identityConfig (constantly (.ext 1)) (constantly (.ext 2)) 5).1
    ∧ (defaultExport identityConfig (constantly (.ext 1)) (constantly (.ext 2)) 0).2 = 0
    ∧ (defaultExport identityConfig (constantly (.ext 1)) (constantly (.ext 2))
        (defaultExport identityConfig (constantly (.ext 1)) (constantly (.ext 2)) 0).2).1
      = (defaultExport identityConfig (constantly (.ext 1)) (constantly (.ext 2)) 0).1 :=
  defaultExport_idempotent identityConfig (constantly (.ext 1)) (constantly (.ext 2))
    (fun args _ _ => by cases args <;> exact ⟨rfl, rfl⟩)
    (fun _ _ _ => ⟨rfl, rfl⟩) (fun _ _ _ => ⟨rfl, rfl⟩) 0 5

/-- C4, as stated, fails: with numbered integration instances the evaluated
configuration record has the two fields `markdown` and `integrations`, not
three; counting property names at every nesting depth gives four, not three. -/
theorem configRecord_fields_not_three :
    ∃ r : JsVal Nat, evalRecord freshInstance freshInstance 0 = (.ok r, 2)
      ∧ r.keys = ["markdown", "integrations"]
      ∧ r.keys.length ≠ 3
      ∧ r.nestedKeyCount ≠ 3 :=
  ⟨configRecord (.ext 0) (.ext 1), rfl, rfl, by decide, by decide⟩

/-- C4, amended: the configuration record has two fields: `markdown`, a
sub-record that contains a theme identifier (a string, at shikiConfig.theme),
and `integrations`, a sequence of integration instances (the results of the
two factory calls). -/
theorem configRecord_two_fields (solidJs mdx : External σ E X) (s0 s1 : σ) (r : JsVal X)
    (hr : evalRecord solidJs mdx s0 = (.ok r, s1)) :
    r.keys = ["markdown", "integrations"]
    ∧ r.keys.length = 2
    ∧ (∃ md theme, r.get "markdown" = some md ∧ md.isObj = true
        ∧ md.path ["shikiConfig", "theme"] = some theme ∧ theme.isStr = true)
    ∧ (∃ a b, r.get "integrations" = some (.arr [a, b])) := by
  obtain ⟨a, t, b, -, -, rfl⟩ := evalRecord_ok_inv solidJs mdx s0 s1 r hr
  refine ⟨rfl, rfl, ⟨.obj [("shikiConfig", .obj [("theme", .str "css-variables")])],
    .str "css-variables", ?_, rfl, ?_, rfl⟩, ⟨a, b, configRecord_integrations a b⟩⟩
  · simp [configRecord, JsVal.get]
  · simp [JsVal.path, JsVal.get]

/-- Witness for C4 amended: a constant factory and a numbering factory,
starting from counter 3. -/
theorem configRecord_two_fields_witness :
    (configRecord (.ext 9) (.ext 3) : JsVal Nat).keys = ["markdown", "integrations"]
    ∧ (configRecord (.ext 9) (.ext 3) : JsVal Nat).keys.length = 2
    ∧ (∃ md theme, (configRecord (.ext 9) (.ext 3) : JsVal Nat).get "markdown" = some md
        ∧ md.isObj = true
        ∧ md.path ["shikiConfig", "theme"] = some theme ∧ theme.isStr = true)
    ∧ (∃ a b, (configRecord (.ext 9) (.ext 3) : JsVal Nat).get "integrations"
        = some (.arr [a, b])) :=
  configRecord_two_fields (constantly (.ext 9)) freshInstance 3 4
    (configRecord (.ext 9) (.ext 3)) rfl

/-- C5: no failure originates in the module itself.  If `solidJs()`, `mdx()`
and `defineConfig(record)` each return a value, the evaluation returns the
value of the last call; and whenever the evaluation fails, the error is the
one thrown by `solidJs()`, or by `mdx()` after `solidJs()` returned, or by
`defineConfig(record)` after both returned. -/
theorem defaultExport_fails_only_in_externals (defineConfig solidJs mdx : External σ E X)
    (s0 : σ) :
    (∀ (a b c : JsVal X) (s1 s2 s3 : σ), solidJs [] s0 = (.ok a, s1) →
        mdx [] s1 = (.ok b, s2) → defineConfig [configRecord a b] s2 = (.ok c, s3) →
        defaultExport defineConfig solidJs mdx s0 = (.ok c, s3))
    ∧ (∀ (e : E) (s' : σ), defaultExport defineConfig solidJs mdx s0 = (.error e, s') →
        solidJs [] s0 = (.error e, s')
        ∨ (∃ a s1, solidJs [] s0 = (.ok a, s1) ∧ mdx [] s1 = (.error e, s'))
        ∨ (∃ a s1 b s2, solidJs [] s0 = (.ok a, s1) ∧ mdx [] s1 = (.ok b, s2)
            ∧ defineConfig [configRecord a b] s2 = (.error e, s'))) := by
  constructor
  · intro a b c s1 s2 s3 h1 h2 h3
    rw [defaultExport_of_record defineConfig solidJs mdx s0 s2 _
      (evalRecord_of_calls solidJs mdx s0 s1 s2 a b h1 h2), h3]
  · intro e s' h
    unfold defaultExport evalRecord at h
    rcases h1 : solidJs [] s0 with ⟨e1 | a, s1⟩
    · left
      simpa [h1] using h
    · rcases h2 : mdx [] s1 with ⟨e2 | b, s2⟩
      · right; left
        exact ⟨a, s1, rfl, by simpa [h1, h2] using h⟩
      · right; right
        exact ⟨a, s1, b, s2, rfl, h2, by simpa [h1, h2] using h⟩

/-- Witness for C5: with returning externals the evaluation returns; with an
`mdx` that throws, the failure of the evaluation is that throw. -/
theorem defaultExport_fails_only_in_externals_witness :
    defaultExport identityConfig freshInstance freshInstance 0
        = (.ok (configRecord (.ext 0) (.ext 1)), 2)
    ∧ (freshInstance [] 0 = (.error "no mdx", 2)
        ∨ (∃ a s1, freshInstance [] 0 = (.ok a, s1)
            ∧ throwing "no mdx" [] s1 = (.error "no mdx", 2))
        ∨ (∃ a s1 b s2, freshInstance [] 0 = (.ok a, s1)
            ∧ throwing "no mdx" [] s1 = (.ok b, s2)
            ∧ identityConfig [configRecord a b] s2 = (.error "no mdx", 2))) :=
  ⟨(defaultExport_fails_only_in_externals identityConfig freshInstance freshInstance 0).1
      (.ext 0) (.ext 1) (configRecord (.ext 0) (.ext 1)) 1 2 2 rfl rfl rfl,
    (defaultExport_fails_only_in_externals identityConfig freshInstance (throwing "no mdx")
      0).2 "no mdx" 2 rfl⟩

/-- C6: the default export is `defineConfig` applied once to the record
{markdown: {shikiConfig: {theme: "css-variables"}}, integrations: [solidJs(),
mdx()]}; the top-level keys of the record are exactly `markdown` and
`integrations`; the calls made are `solidJs()` and `mdx()` with no arguments
followed by the one call of `defineConfig` on the record; and when
`defineConfig` returns its argument unchanged the export equals the record. -/
theorem defaultExport_is_defineConfig_of_record (defineConfig solidJs mdx : External σ E X)
    (s0 s1 s2 : σ) (a b : JsVal X)
    (h1 : solidJs [] s0 = (.ok a, s1)) (h2 : mdx [] s1 = (.ok b, s2)) :
    defaultExport defineConfig solidJs mdx s0
      = defineConfig [.obj [("markdown", .obj [("shikiConfig",
          .obj [("theme", .str "css-variables")])]), ("integrations", .arr [a, b])]] s2
    ∧ (JsVal.obj [("markdown", .obj [("shikiConfig",
          .obj [("theme", .str "css-variables")])]), ("integrations", .arr [a, b])]).keys
        = ["markdown", "integrations"]
    ∧ (defaultExport (traced "defineConfig" defineConfig) (traced "solidJs" solidJs)
        (traced "mdx" mdx) ([], s0)).2.1
        = [("solidJs", []), ("mdx", []),
            ("defineConfig", [.obj [("markdown", .obj [("shikiConfig",
              .obj [("theme", .str "css-variables")])]), ("integrations", .arr [a, b])]])]
    ∧ (ReturnsArgument defineConfig → (defaultExport defineConfig solidJs mdx s0).1
        = .ok (.obj [("markdown", .obj [("shikiConfig",
            .obj [("theme", .str "css-variables")])]), ("integrations", .arr [a, b])])) := by
  have hrec := evalRecord_of_calls solidJs mdx s0 s1 s2 a b h1 h2
  have hexp := defaultExport_of_record defineConfig solidJs mdx s0 s2 _ hrec
  refine ⟨hexp, rfl, ?_, ?_⟩
  · have t1 : traced "solidJs" solidJs [] (([] : CallLog X), s0)
        = (.ok a, ([("solidJs", [])], s1)) := by simp [traced, h1]
    have t2 : traced "mdx" mdx [] (([("solidJs", [])] : CallLog X), s1)
        = (.ok b, ([("solidJs", []), ("mdx", [])], s2)) := by simp [traced, h2]
    rw [defaultExport_of_record _ _ _ _ _ _ (evalRecord_of_calls _ _ _ _ _ a b t1 t2)]
    simp [traced, configRecord]
  · intro hid
    rw [hexp]
    exact hid _ _

/-- Witness for C6: numbered integration instances and the identity
`defineConfig`, starting from counter 0; the call log lists the three calls. -/
theorem defaultExport_is_defineConfig_of_record_witness :
    (defaultExport (traced "defineConfig" identityConfig) (traced "solidJs" freshInstance)
        (traced "mdx" freshInstance) ([], 0)).2.1
        = [("solidJs", []), ("mdx", []),
            ("defineConfig", [.obj [("markdown", .obj [("shikiConfig",
              .obj [("theme", .str "css-variables")])]),
              ("integrations", .arr [.ext 0, .ext 1])]])]
    ∧ (defaultExport identityConfig freshInstance freshInstance 0).1
        = .ok (.obj [("markdown", .obj [("shikiConfig",
            .obj [("theme", .str "css-variables")])]),
            ("integrations", .arr [.ext 0, .ext 1])]) :=
  ⟨(defaultExport_is_defineConfig_of_record identityConfig freshInstance freshInstance
      0 1 2 (.ext 0) (.ext 1) rfl rfl).2.2.1,
    (defaultExport_is_defineConfig_of_record identityConfig freshInstance freshInstance
      0 1 2 (.ext 0) (.ext 1) rfl rfl).2.2.2 (fun _ _ => rfl)⟩

end AstroConfig
